import Mathlib

/-!
Verification of the Figma MCP relay server (`src/figma-mcp-server/src/server.js`).

The development shallowly embeds the parts of the server the claims are
about:

* a small model of JavaScript values (`JVal`) with JS truthiness, string
  coercion and the `+` / `||` operators, used where the server manipulates
  raw argument values (raw numbers are modelled as exact integers, typed
  argument fields as exact rationals; every value the claims evaluate is
  integral, where exact arithmetic and rendering agree with JS doubles);
* the static tool catalog emitted by `tools/list` (names and `required`
  lists; descriptions and the full JSON schemas are elided as pure data);
* the key set of the static `LUCIDE_ICONS` table (the SVG values are
  non-empty strings, hence truthy, so presence of a key is exactly what the
  server's `!svgDataToSend` test observes);
* the `tools/call` dispatcher `handleToolCall`: per-tool argument
  validation, the operation record broadcast to the plugin pool, and the
  immediate substantive reply written to the SSE stream;
* the plugin connection pool (`Map` keyed by `Date.now().toString()`) and
  its broadcast;
* the two response-correlator shapes: the one-shot `ws.once('message', …)`
  listener attached to the first pool socket (selectNode / listNodes /
  deleteNode), and the recurring `ws.on('message', handler.bind(null, c, ws))`
  listeners attached to every socket (moveNode / createIcon /
  createBorderBox / drawLine), whose `removeListener` calls pass a *fresh*
  `.bind` copy — a function object that matches no attached listener.
-/

namespace FigmaMCP

/-- JavaScript primitive values as the server observes them: `undefined`
(also the result of reading an absent argument key), `null`, booleans,
numbers (restricted to integers — the only arithmetic performed on raw
values is the `addNumbersTool` sum, and every claim evaluates it on
integers, where exact integer arithmetic agrees with JS doubles) and
strings; `objA n` stands for an arbitrary object value, identified
abstractly (objects are only passed through, never inspected, by the code
under study). -/
inductive JVal where
  | undef : JVal
  | null : JVal
  | boolean : Bool → JVal
  | num : Int → JVal
  | str : String → JVal
  | objA : Nat → JVal
  deriving DecidableEq

/-- JS truthiness: `undefined`, `null`, `false`, `0` and `""` are falsy;
every object is truthy. -/
def jsTruthy : JVal → Bool
  | .undef => false
  | .null => false
  | .boolean b => b
  | .num n => n ≠ 0
  | .str s => s ≠ ""
  | .objA _ => true

/-- Rendering of a number into a template literal.  The claims only ever
evaluate integral values, where this agrees with JS number rendering. -/
def ratToStr (q : Rat) : String :=
  if q.den = 1 then toString q.num else toString q.num ++ "/" ++ toString q.den

/-- JS `ToString`, as used by template literals. -/
def jsToString : JVal → String
  | .undef => "undefined"
  | .null => "null"
  | .boolean b => if b then "true" else "false"
  | .num n => toString n
  | .str s => s
  | .objA _ => "[object Object]"

/-- Whether the JS `+` operator would take its string-concatenation path
(one operand is a string, or an object whose primitive form is a string). -/
def jsStringish : JVal → Bool
  | .str _ => true
  | .objA _ => true
  | _ => false

/-- JS `ToNumber` on the non-string values reachable here.  (`undefined`
is falsy, so after an `x || 0` guard it never reaches this coercion.) -/
def jsToNumber : JVal → Int
  | .num n => n
  | .boolean b => if b then 1 else 0
  | _ => 0

/-- The JS binary `+`: string concatenation when either side is stringish,
numeric addition otherwise. -/
def jsAdd (x y : JVal) : JVal :=
  if jsStringish x || jsStringish y then .str (jsToString x ++ jsToString y)
  else .num (jsToNumber x + jsToNumber y)

/-- The JS `||` operator: the left operand if truthy, otherwise the right. -/
def jsOr (x d : JVal) : JVal := if jsTruthy x then x else d

/-- `o || d` for an optional string argument: absent and `""` are falsy. -/
def strOr (o : Option String) (d : String) : String :=
  match o with
  | some s => if s = "" then d else s
  | none => d

/-- `!o` for an optional string argument (absent or empty string). -/
def strFalsy (o : Option String) : Bool :=
  match o with
  | some s => s = ""
  | none => true

/-- `o || d` for an optional numeric argument: absent and `0` are falsy. -/
def numOr (o : Option Rat) (d : Rat) : Rat :=
  match o with
  | some n => if n = 0 then d else n
  | none => d

/-- `args.nodeId || null`: an absent or empty node id becomes `null`. -/
def nodeIdOrNull (o : Option String) : Option String :=
  match o with
  | some s => if s = "" then none else some s
  | none => none

/-- `o || d` for an optional object-valued argument (objects are truthy). -/
def jvOrObj (o : Option JVal) (d : JVal) : JVal :=
  match o with
  | some v => if jsTruthy v then v else d
  | none => d

/-- `!o` for an optional object-valued argument. -/
def jvFalsy (o : Option JVal) : Bool :=
  match o with
  | some v => !jsTruthy v
  | none => true

/-- A position object `{x, y}`. -/
structure Pos where
  x : Rat
  y : Rat
  deriving DecidableEq

/-- A size object `{width, height}`. -/
structure Size where
  width : Rat
  height : Rat
  deriving DecidableEq

/-- An RGB color object `{r, g, b}` with components in `[0, 1]`. -/
structure RGB where
  r : Rat
  g : Rat
  b : Rat
  deriving DecidableEq

/-- The `arguments` object of a `tools/call` request.  Absent keys are
`none` (for `a` and `b`, which the server reads raw, absence is
`JVal.undef`, exactly what reading a missing key yields in JS).  The
fields follow the declared schema types of the tool catalog; the `size`
key is typed per the called tool's schema: an object for
`createRectangle`/`createBorderBox` (`size`) and a number for
`createIcon` (`sizeNum`). -/
structure Args where
  a : JVal := .undef
  b : JVal := .undef
  fileId : Option String := none
  position : Option Pos := none
  size : Option Size := none
  sizeNum : Option Rat := none
  color : Option RGB := none
  text : Option String := none
  fontSize : Option Rat := none
  fontFamily : Option String := none
  resizeMode : Option String := none
  pageName : Option String := none
  description : Option String := none
  styleGuide : Option JVal := none
  nodeId : Option String := none
  radius : Option Rat := none
  fontWeight : Option String := none
  italic : Option Bool := none
  horizontal : Option String := none
  vertical : Option String := none
  padding : Option JVal := none
  itemSpacing : Option Rat := none
  width : Option Rat := none
  height : Option Rat := none
  includeDetails : Option Bool := none
  iconName : Option String := none
  strokeWidth : Option Rat := none
  start : Option Pos := none
  endPos : Option Pos := none
  thickness : Option Rat := none
  options : Option JVal := none
  deriving DecidableEq

/-- The key set of the static `LUCIDE_ICONS` table, in source order.  Each
key maps to a non-empty SVG string, so `LUCIDE_ICONS[k]` is truthy exactly
when `k` is in this list. -/
def lucideIconKeys : List String :=
  ["activity", "alert-circle", "archive", "arrow-right", "bell", "calendar",
   "check", "chevron-down", "chevron-left", "chevron-right", "chevron-up",
   "clipboard", "clock", "copy", "download", "edit", "external-link",
   "file-text", "filter", "heart", "home", "image", "link", "mail", "menu",
   "minus", "more-horizontal", "more-vertical", "plus", "search", "settings",
   "square-x", "trash", "upload", "user", "x"]

/-- One entry of the static tool catalog: the tool's name and the
`required` list of its input schema (descriptions and property schemas are
pure data and are elided). -/
structure ToolDescriptor where
  name : String
  required : List String
  deriving DecidableEq

/-- The static tool catalog emitted by `tools/list`, in source order. -/
def toolsCatalog : List ToolDescriptor :=
  [⟨"addNumbersTool", ["a", "b"]⟩,
   ⟨"figma.getFile", ["fileId"]⟩,
   ⟨"figma.createRectangle", ["position", "size"]⟩,
   ⟨"figma.createText", ["text", "position"]⟩,
   ⟨"figma.createPage", ["pageName", "description"]⟩,
   ⟨"figma.selectNode", ["nodeId"]⟩,
   ⟨"figma.changeColor", ["color"]⟩,
   ⟨"figma.changeRadius", ["radius"]⟩,
   ⟨"figma.changeTypeface", ["fontFamily"]⟩,
   ⟨"figma.changeFontStyle", []⟩,
   ⟨"figma.changeAlignment", []⟩,
   ⟨"figma.changeSpacing", []⟩,
   ⟨"figma.listFonts", []⟩,
   ⟨"figma.changeTextResize", ["resizeMode"]⟩,
   ⟨"figma.listNodes", []⟩,
   ⟨"figma.deleteNode", []⟩,
   ⟨"figma.moveNode", ["position"]⟩,
   ⟨"figma.createIcon", ["iconName", "position"]⟩,
   ⟨"figma.createBorderBox", ["position", "size", "options"]⟩,
   ⟨"figma.drawLine", ["start", "end"]⟩]

/-- The literal `count` field the server writes into the `tools/list`
result (`count: 19` in the source). -/
def toolsListCount : Nat := 19

/-- Whether the argument object omits the schema field of the given name
(`a` and `b` are read raw, so absence is `undefined`). -/
def fieldAbsent (args : Args) (f : String) : Bool :=
  if f = "a" then args.a = JVal.undef
  else if f = "b" then args.b = JVal.undef
  else if f = "fileId" then args.fileId.isNone
  else if f = "position" then args.position.isNone
  else if f = "size" then args.size.isNone
  else if f = "text" then args.text.isNone
  else if f = "pageName" then args.pageName.isNone
  else if f = "description" then args.description.isNone
  else if f = "nodeId" then args.nodeId.isNone
  else if f = "color" then args.color.isNone
  else if f = "radius" then args.radius.isNone
  else if f = "fontFamily" then args.fontFamily.isNone
  else if f = "resizeMode" then args.resizeMode.isNone
  else if f = "iconName" then args.iconName.isNone
  else if f = "options" then args.options.isNone
  else if f = "start" then args.start.isNone
  else if f = "end" then args.endPos.isNone
  else false

/-- Messages arriving on a plugin socket, after JSON parsing.  `completed`
carries the reported `originalOperation` tag and the optional
`data.nodeId`; `malformed` stands for a frame whose JSON parse throws. -/
inductive PluginMsg where
  | completed : String → Option String → PluginMsg
  | opError : String → String → PluginMsg
  | nodesMoved : Nat → PluginMsg
  | nodesDeleted : Nat → List String → PluginMsg
  | nodesList : String → PluginMsg
  | other : String → PluginMsg
  | malformed : PluginMsg
  deriving DecidableEq

/-- The operation records the dispatcher passes to
`sendOperationToPlugin`, one constructor per `type` tag, with the
normalized argument fields of the corresponding object literal.  For
`createIcon` the `svgData` field always holds the `LUCIDE_ICONS` entry of
the sent `iconName`, so it is not represented separately. -/
inductive Operation where
  | createRectangle : Pos → Size → RGB → Operation
  | createText : String → Pos → Rat → RGB → String → String → Operation
  | createPage : String → String → JVal → Operation
  | selectNode : String → Operation
  | changeColor : RGB → Option String → Operation
  | changeRadius : Rat → Option String → Operation
  | changeTypeface : String → Option String → Operation
  | changeFontStyle : Option Rat → Option String → Option Bool → Option String → Operation
  | changeAlignment : Option String → Option String → Option String → Operation
  | changeSpacing : Option JVal → Option Rat → Option String → Operation
  | listFonts : Operation
  | changeTextResize : String → Option Rat → Option Rat → Option String → Operation
  | listNodes : Bool → Operation
  | deleteNode : Option String → Operation
  | moveNode : Pos → Option String → Operation
  | createIcon : String → Pos → Option Rat → Option RGB → Option Rat → Operation
  | createBorderBox : Pos → Size → JVal → Operation
  | drawLine : Pos → Pos → Option RGB → Option Rat → Operation
  deriving DecidableEq

/-- The body of a substantive JSON-RPC response: a success whose
`result.content[0].text` is the given string, or an error with `code`,
`message` and `data` (auxiliary result fields such as the `fonts` array
are elided). -/
inductive Reply where
  | ok : String → Reply
  | err : Int → String → String → Reply
  deriving DecidableEq

/-- A full `message` event on the session stream: the JSON-RPC `id` it
carries (always `rpc.id`) and its body. -/
structure RpcOut where
  id : Int
  body : Reply
  deriving DecidableEq

/-- The immediate substantive outcome of a `tools/call` dispatch: a
message written to the stream now, a pending correlator (the reply will be
produced by a listener or the 5-second timeout), or a pending external
`getFile` fetch. -/
inductive Immediate where
  | msg : RpcOut → Immediate
  | pendingCorrelator : Immediate
  | pendingFetch : String → Immediate
  deriving DecidableEq

/-- The `-32602` invalid-params message with the given `data` string. -/
def invalidParams (rpcId : Int) (d : String) : Immediate :=
  .msg ⟨rpcId, .err (-32602) "Invalid params" d⟩

/-- Recognizer for an immediate `-32602` invalid-params message. -/
def isInvalidParamsMsg : Immediate → Bool
  | .msg ⟨_, .err c _ _⟩ => c = -32602
  | _ => false

/-- Recognizer for an immediate error message of any code. -/
def isErrorMsg : Immediate → Bool
  | .msg ⟨_, .err _ _ _⟩ => true
  | _ => false

/-- Recognizer for an immediate success message. -/
def isOkMsg : Immediate → Bool
  | .msg ⟨_, .ok _⟩ => true
  | _ => false

/-- The text of the `addNumbersTool` reply: the template
`Sum of ${args.a} + ${args.b} = ${sum}` with `sum = (args.a || 0) +
(args.b || 0)`. -/
def sumText (a b : JVal) : String :=
  "Sum of " ++ jsToString a ++ " + " ++ jsToString b ++ " = " ++
    jsToString (jsAdd (jsOr a (.num 0)) (jsOr b (.num 0)))

/-- Icon-name resolution of `figma.createIcon`: the requested name if it
is a key of the icon table, otherwise the fixed fallback `square-x`;
the flag records whether the fallback was taken. -/
def prepareIcon (requested : String) : String × Bool :=
  if requested ∈ lucideIconKeys then (requested, false) else ("square-x", true)

/-- The static fallback font list of `figma.listFonts`. -/
def commonFonts : List String :=
  ["Inter", "Roboto", "SF Pro", "Helvetica Neue", "Arial",
   "Georgia", "Times New Roman", "Courier New", "Comic Sans MS",
   "Open Sans", "Montserrat", "Lato", "Poppins", "Playfair Display",
   "Nunito", "Work Sans", "Source Sans Pro", "IBM Plex Sans", "Roboto Mono"]

/-- `JSON.stringify` of a list of strings (none of the fonts need
escaping). -/
def jsonStringList (l : List String) : String :=
  "[" ++ String.intercalate "," (l.map (fun s => "\"" ++ s ++ "\"")) ++ "]"

/-- The `figma.listFonts` reply text. -/
def listFontsText : String :=
  "Font families available in Figma: " ++ jsonStringList commonFonts

/-- The `tools/call` dispatcher: given the request id, the current plugin
pool (clientId, socket) in insertion order, the tool name and the
arguments, it returns the immediate substantive outcome and the list of
operations passed to `sendOperationToPlugin` (empty when validation
fails).  Each branch mirrors the corresponding `else if` branch of the
`tools/call` case in `server.js`. -/
def handleToolCall (rpcId : Int) (pool : List (String × Nat))
    (name : String) (args : Args) : Immediate × List Operation :=
  if name = "addNumbersTool" then
    (.msg ⟨rpcId, .ok (sumText args.a args.b)⟩, [])
  else if name = "figma.getFile" then
    if strFalsy args.fileId then
      (invalidParams rpcId "Missing fileId parameter", [])
    else
      (.pendingFetch (args.fileId.getD ""), [])
  else if name = "figma.createRectangle" then
    if args.position.isNone || args.size.isNone then
      (invalidParams rpcId "Missing position or size parameters", [])
    else
      (.msg ⟨rpcId, .ok "Rectangle creation operation sent to plugin"⟩,
       [.createRectangle (args.position.getD ⟨0, 0⟩) (args.size.getD ⟨0, 0⟩)
          (args.color.getD ⟨0.8, 0.8, 0.8⟩)])
  else if name = "figma.createText" then
    if strFalsy args.text || args.position.isNone then
      (invalidParams rpcId "Missing text or position parameters", [])
    else
      (.msg ⟨rpcId, .ok "Text creation operation sent to plugin"⟩,
       [.createText (args.text.getD "") (args.position.getD ⟨0, 0⟩)
          (numOr args.fontSize 24) (args.color.getD ⟨0, 0, 0⟩)
          (strOr args.fontFamily "Inter") (strOr args.resizeMode "AUTO_WIDTH")])
  else if name = "figma.createPage" then
    if strFalsy args.pageName || strFalsy args.description then
      (invalidParams rpcId "Missing pageName or description parameters", [])
    else
      (.msg ⟨rpcId, .ok "Page creation operation sent to plugin"⟩,
       [.createPage (args.pageName.getD "") (args.description.getD "")
          (jvOrObj args.styleGuide (.objA 0))])
  else if name = "figma.selectNode" then
    if strFalsy args.nodeId then
      (invalidParams rpcId
        "Missing nodeId parameter. Please first use figma.listNodes to get available node IDs.",
       [])
    else
      (if pool.isEmpty then
        .msg ⟨rpcId, .err (-32603) "No Figma connection"
          "No Figma plugin connection available. Make sure the Figma plugin is running and connected."⟩
       else .pendingCorrelator,
       [.selectNode (args.nodeId.getD "")])
  else if name = "figma.changeColor" then
    if args.color.isNone then
      (invalidParams rpcId "Missing color parameter", [])
    else
      (.msg ⟨rpcId, .ok "Color change operation sent to plugin"⟩,
       [.changeColor (args.color.getD ⟨0, 0, 0⟩) (nodeIdOrNull args.nodeId)])
  else if name = "figma.changeRadius" then
    if args.radius.isNone then
      (invalidParams rpcId "Missing radius parameter", [])
    else
      (.msg ⟨rpcId, .ok "Corner radius change operation sent to plugin"⟩,
       [.changeRadius (args.radius.getD 0) (nodeIdOrNull args.nodeId)])
  else if name = "figma.changeTypeface" then
    if strFalsy args.fontFamily then
      (invalidParams rpcId "Missing fontFamily parameter", [])
    else
      (.msg ⟨rpcId, .ok "Typeface change operation sent to plugin"⟩,
       [.changeTypeface (args.fontFamily.getD "") (nodeIdOrNull args.nodeId)])
  else if name = "figma.changeFontStyle" then
    if (match args.fontSize with | some n => n = 0 | none => true) &&
       strFalsy args.fontWeight && args.italic.isNone then
      (invalidParams rpcId
        "At least one of fontSize, fontWeight, or italic must be provided", [])
    else
      (.msg ⟨rpcId, .ok "Font style change operation sent to plugin"⟩,
       [.changeFontStyle args.fontSize args.fontWeight args.italic
          (nodeIdOrNull args.nodeId)])
  else if name = "figma.changeAlignment" then
    if strFalsy args.horizontal && strFalsy args.vertical then
      (invalidParams rpcId
        "At least one of horizontal or vertical alignment must be provided", [])
    else
      (.msg ⟨rpcId, .ok "Alignment change operation sent to plugin"⟩,
       [.changeAlignment args.horizontal args.vertical (nodeIdOrNull args.nodeId)])
  else if name = "figma.changeSpacing" then
    if jvFalsy args.padding && args.itemSpacing.isNone then
      (invalidParams rpcId
        "At least one of padding or itemSpacing must be provided", [])
    else
      (.msg ⟨rpcId, .ok "Spacing change operation sent to plugin"⟩,
       [.changeSpacing args.padding args.itemSpacing (nodeIdOrNull args.nodeId)])
  else if name = "figma.listFonts" then
    (.msg ⟨rpcId, .ok listFontsText⟩, [.listFonts])
  else if name = "figma.changeTextResize" then
    if strFalsy args.resizeMode then
      (invalidParams rpcId "Missing resizeMode parameter", [])
    else
      (.msg ⟨rpcId, .ok ("Text resize mode changed to " ++ args.resizeMode.getD "")⟩,
       [.changeTextResize (args.resizeMode.getD "") args.width args.height
          (nodeIdOrNull args.nodeId)])
  else if name = "figma.listNodes" then
    (if pool.isEmpty then
      .msg ⟨rpcId, .err (-32603) "No Figma plugin connected"
        "Cannot list nodes because no Figma plugin is connected"⟩
     else .pendingCorrelator,
     [.listNodes (args.includeDetails.getD false)])
  else if name = "figma.deleteNode" then
    (if pool.isEmpty then
      .msg ⟨rpcId, .err (-32603) "No Figma connection"
        "No Figma plugin connection available. Make sure the Figma plugin is running and connected."⟩
     else .pendingCorrelator,
     [.deleteNode (nodeIdOrNull args.nodeId)])
  else if name = "figma.moveNode" then
    if args.position.isNone then
      (invalidParams rpcId "Missing position parameter", [])
    else
      (.pendingCorrelator, [.moveNode (args.position.getD ⟨0, 0⟩) args.nodeId])
  else if name = "figma.createIcon" then
    if strFalsy args.iconName || args.position.isNone then
      (invalidParams rpcId "Missing iconName or position parameters", [])
    else
      let pr := prepareIcon (args.iconName.getD "")
      if pr.2 && "square-x" ∉ lucideIconKeys then
        (.msg ⟨rpcId, .err (-32603) "Internal Server Error"
          "Fallback icon 'square-x' is missing from the server configuration."⟩, [])
      else
        (.pendingCorrelator,
         [.createIcon pr.1 (args.position.getD ⟨0, 0⟩) args.sizeNum args.color
            args.strokeWidth])
  else if name = "figma.createBorderBox" then
    if args.position.isNone || args.size.isNone || args.options.isNone then
      (invalidParams rpcId "Missing position, size, or options parameters", [])
    else
      (.pendingCorrelator,
       [.createBorderBox (args.position.getD ⟨0, 0⟩) (args.size.getD ⟨0, 0⟩)
          (args.options.getD (.objA 0))])
  else if name = "figma.drawLine" then
    if args.start.isNone || args.endPos.isNone then
      (invalidParams rpcId "Missing start or end parameters", [])
    else
      (.pendingCorrelator,
       [.drawLine (args.start.getD ⟨0, 0⟩) (args.endPos.getD ⟨0, 0⟩)
          args.color args.thickness])
  else
    (.msg ⟨rpcId, .err (-32601) "Method not found"
      ("Tool '" ++ name ++ "' not implemented")⟩, [])

/-- `broadcast` delivery: `sendOperationToPlugin` returns at once when the
pool is empty, otherwise it attempts one send per registered socket. -/
def broadcastDeliveries (pool : List (String × Nat)) (op : Operation) :
    List (String × Operation) :=
  if pool.isEmpty then [] else pool.map (fun kv => (kv.1, op))

/-- JS `Map.set` on an association list in insertion order: an existing
key keeps its original slot and gets the new value, a new key is appended. -/
def mapSet (pool : List (String × Nat)) (k : String) (v : Nat) :
    List (String × Nat) :=
  match pool with
  | [] => [(k, v)]
  | (k0, v0) :: rest =>
      if k0 = k then (k0, v) :: rest else (k0, v0) :: mapSet rest k v

/-- Registration of a plugin socket: the clientId is
`Date.now().toString()` — the current clock millisecond rendered as a
string — and the socket is stored under it with `Map.set`. -/
def registerClient (pool : List (String × Nat)) (nowMs : Nat) (sock : Nat) :
    List (String × Nat) × String :=
  (mapSet pool (toString nowMs) sock, toString nowMs)

/-- The sockets a broadcast reaches: the pool's values in insertion order. -/
def broadcastTargets (pool : List (String × Nat)) : List Nat :=
  pool.map Prod.snd

/-- An event relevant to an armed response correlator: a plugin message
arriving on the socket of the named client, or the 5-second timer firing. -/
inductive CorrEv where
  | msg : String → PluginMsg → CorrEv
  | timeout : CorrEv
  deriving DecidableEq

/-- State of a one-shot correlator (`ws.once('message', …)` on the first
pool socket, as used by selectNode, listNodes and deleteNode): the client
whose socket still carries the listener (if any), whether `clearTimeout`
has been called, whether the timer has already fired, and the terminal
messages written to the origin stream so far. -/
structure OnceState where
  armed : Option String
  tCleared : Bool
  tFired : Bool
  writes : List Reply
  deriving DecidableEq

/-- Arming a one-shot correlator over the current pool:
`Array.from(figmaClients.values())[0]` picks the first socket in
insertion order; with an empty pool the handler clears the timer and
writes the no-connection error at once. -/
def armOnce (noConn : Reply) (pool : List (String × Nat)) : OnceState :=
  match pool.head? with
  | some (c, _) => { armed := some c, tCleared := false, tFired := false, writes := [] }
  | none => { armed := none, tCleared := true, tFired := false, writes := [noConn] }

/-- A message event against a one-shot correlator: the listener fires only
for a message on the socket it is attached to, is detached before the
handler runs (`once` semantics), and the handler writes a terminal
message — and clears the timer — exactly when the parsed data matches its
predicate (`h`). -/
def onceMsg (h : PluginMsg → Option Reply) (st : OnceState)
    (c : String) (d : PluginMsg) : OnceState :=
  match st.armed with
  | some c0 =>
      if c0 = c then
        let st1 := { st with armed := none }
        match h d with
        | some r => { st1 with tCleared := true, writes := st1.writes ++ [r] }
        | none => st1
      else st
  | none => st

/-- The 5-second timer firing: unless it was cleared (or already fired),
it writes the synthetic timeout error; the listener is not detached. -/
def onceTimeout (tr : Reply) (st : OnceState) : OnceState :=
  if st.tCleared || st.tFired then st
  else { st with tFired := true, writes := st.writes ++ [tr] }

/-- Running a one-shot correlator over a sequence of events. -/
def onceRun (h : PluginMsg → Option Reply) (tr : Reply) (st : OnceState) :
    List CorrEv → OnceState :=
  List.foldl (fun s e =>
    match e with
    | .msg c d => onceMsg h s c d
    | .timeout => onceTimeout tr s) st

/-- State of a recurring multi-socket correlator
(`ws.on('message', handler.bind(null, clientId, ws))` per pool socket, as
used by moveNode, createIcon, createBorderBox and drawLine): the attached
listeners as (client, function-identity) pairs — each `.bind` call yields
a distinct function object, modelled by a fresh `Nat` — plus the timer
flags and the terminal writes. -/
structure MultiState where
  listeners : List (String × Nat)
  fresh : Nat
  tCleared : Bool
  tFired : Bool
  writes : List Reply
  deriving DecidableEq

/-- Attaching one bound handler copy per pool socket, in pool order; the
`Nat` component is the function identity of the `.bind` copy. -/
def attachAll : List (String × Nat) → Nat → List (String × Nat)
  | [], _ => []
  | (c, _) :: rest, n => (c, n) :: attachAll rest (n + 1)

/-- Arming a multi-socket correlator: one bound handler copy is attached
per pool socket. -/
def armMulti (pool : List (String × Nat)) : MultiState :=
  { listeners := attachAll pool 0
    fresh := pool.length
    tCleared := false
    tFired := false
    writes := [] }

/-- One matching firing of a multi-socket handler: it clears the timer,
writes the terminal message, and then calls `removeListener` with
`handler.bind(null, clientId, ws)` — a *fresh* function object that is
identical to no attached listener, so the erase removes nothing and the
listener stays armed. -/
def multiResolve (c : String) (r : Reply) (s : MultiState) : MultiState :=
  { s with tCleared := true
           writes := s.writes ++ [r]
           listeners := s.listeners.erase (c, s.fresh)
           fresh := s.fresh + 1 }

/-- A message event against a multi-socket correlator: every listener
attached to the emitting client's socket fires (snapshot at emit time);
the parsed data is the same for each firing, so either every firing
matches and resolves, or none does. -/
def multiMsg (h : PluginMsg → Option Reply) (st : MultiState)
    (c : String) (d : PluginMsg) : MultiState :=
  match h d with
  | some r =>
      (st.listeners.filter (fun l => l.1 = c)).foldl
        (fun s _ => multiResolve c r s) st
  | none => st

/-- The 5-second timer of a multi-socket correlator firing (the moveNode
timer detaches no listener; createIcon/drawLine try to, with the same
ineffective fresh `.bind` copy). -/
def multiTimeout (tr : Reply) (st : MultiState) : MultiState :=
  if st.tCleared || st.tFired then st
  else { st with tFired := true, writes := st.writes ++ [tr] }

/-- Running a multi-socket correlator over a sequence of events. -/
def multiRun (h : PluginMsg → Option Reply) (tr : Reply) (st : MultiState) :
    List CorrEv → MultiState :=
  List.foldl (fun s e =>
    match e with
    | .msg c d => multiMsg h s c d
    | .timeout => multiTimeout tr s) st

/-- Substring test (`String.includes`): `pat` occurs in `s`. -/
def containsSub (s pat : String) : Bool :=
  (s.splitOn pat).length != 1

/-- The remediation enrichment of a selectNode plugin error: lookup
failures mentioning "not found" get step-by-step guidance appended. -/
def selectRemediate (e : String) : String :=
  if e ≠ "" && containsSub e "not found" then
    e ++ "\n\nPlease try these steps:\n1. Use figma.listNodes to get valid node IDs\n2. Make sure you're on the correct page in Figma\n3. Try using one of the available node IDs from the list"
  else e

/-- The selectNode correlator's match predicate and writes
(`handlePluginResponse` in the selectNode branch): a completion or error
tagged `select-node` produces the terminal message, anything else —
including a malformed frame, whose parse error is caught — is ignored. -/
def selectHandler (nodeId : String) : PluginMsg → Option Reply
  | .completed "select-node" _ =>
      some (.ok ("Successfully selected node: " ++ nodeId))
  | .opError "select-node" e =>
      some (.err (-32603) "Operation failed" (selectRemediate e))
  | _ => none

/-- The selectNode timeout error. -/
def selectTimeoutReply : Reply :=
  .err (-32603) "Operation timeout"
    "Node selection operation timed out. Try using figma.listNodes first to get valid node IDs."

/-- The selectNode no-connection error written when the pool is empty. -/
def selectNoConnReply : Reply :=
  .err (-32603) "No Figma connection"
    "No Figma plugin connection available. Make sure the Figma plugin is running and connected."

/-- The success text of a `nodes-moved` report. -/
def movedText (k : Nat) (pos : Pos) : String :=
  "Moved " ++ toString k ++ " node(s) to position (" ++
    ratToStr pos.x ++ ", " ++ ratToStr pos.y ++ ")"

/-- The moveNode correlator's match predicate and writes
(`handleMovedNodes`): `nodes-moved`, or a completion/error tagged
`move-node`, produces the terminal message. -/
def moveHandler (pos : Pos) : PluginMsg → Option Reply
  | .nodesMoved k => some (.ok (movedText k pos))
  | .opError "move-node" e => some (.err (-32603) "Operation error" e)
  | .completed "move-node" _ =>
      some (.ok ("Successfully moved node(s) to position (" ++
        ratToStr pos.x ++ ", " ++ ratToStr pos.y ++ ")"))
  | _ => none

/-- The moveNode timeout error. -/
def moveTimeoutReply : Reply :=
  .err (-32603) "Operation timeout"
    "The operation timed out. The plugin might be disconnected."

/-- `data.data?.nodeId || 'unknown'`: the reported node id, with absent
and empty falling back to `unknown`. -/
def jsStrOr (o : Option String) (d : String) : String :=
  match o with
  | some s => if s = "" then d else s
  | none => d

/-- The fallback-disclosing success text of `figma.createIcon`, quoting
both the requested and the actually created icon name. -/
def iconFallbackText (requested used nid : String) : String :=
  "Icon '" ++ requested ++ "' not found. Created fallback '" ++ used ++
    "' icon instead (ID: " ++ nid ++ ")"

/-- The plain success text of `figma.createIcon`. -/
def iconSuccessText (used nid : String) : String :=
  "Successfully created '" ++ used ++ "' icon (ID: " ++ nid ++ ")"

/-- The createIcon correlator's match predicate and writes
(`handleIconCreation`), parameterized by the requested icon name, the
name actually sent, and whether the fallback was taken: on completion the
success text either discloses the fallback — quoting both names — or
reports plain success. -/
def iconHandlerFire (requested used : String) (fallbackUsed : Bool) :
    PluginMsg → Option Reply
  | .completed "create-icon" nid =>
      some (.ok (if fallbackUsed then
        iconFallbackText requested used (jsStrOr nid "unknown")
      else
        iconSuccessText used (jsStrOr nid "unknown")))
  | .opError "create-icon" e =>
      some (.err (-32603) "Operation error creating icon" e)
  | _ => none

/-- C4: the claim fails on the code — the `tools/list` catalog has 20
tools while the emitted `count` field is the literal 19, so the two never
agree.  (The spec requires `count` to match the array length; the
hard-coded 19 was evidently not bumped when the 20th tool was added.) -/
theorem tools_list_count_mismatch :
    toolsCatalog.length = 20 ∧ toolsListCount = 19 ∧
      toolsListCount ≠ toolsCatalog.length := by decide

/-- C7: a `tools/call` of `addNumbersTool` with `a = 2` and `b = 3`, for
any request id and any pool, produces the substantive message carrying the
same JSON-RPC id and the text `Sum of 2 + 3 = 5`, with no broadcast. -/
theorem addNumbers_two_three_sum (rpcId : Int) (pool : List (String × Nat)) :
    handleToolCall rpcId pool "addNumbersTool" { a := .num 2, b := .num 3 } =
      (.msg ⟨rpcId, .ok "Sum of 2 + 3 = 5"⟩, []) := rfl

/-- C1: the at-most-once-resolution claim fails on the code.  First
conjunct — a `figma.moveNode` correlator armed over a one-socket pool
(the state `handleToolCall` leaves behind when it returns
`pendingCorrelator`) writes TWO terminal success messages when two
qualifying `nodes-moved` reports arrive in quick succession, because
`removeListener` is handed a fresh `.bind` copy of `handleMovedNodes`
that matches no attached listener.  Second conjunct — a `figma.selectNode`
correlator whose 5-second timeout has already fired (one terminal timeout
error) still writes a second terminal success when a qualifying message
arrives later, because the `once` listener is not detached on timeout. -/
theorem correlator_double_terminal_write :
    (multiRun (moveHandler ⟨100, 200⟩) moveTimeoutReply (armMulti [("1", 7)])
        [.msg "1" (.nodesMoved 2), .msg "1" (.nodesMoved 2)]).writes =
      [.ok (movedText 2 ⟨100, 200⟩), .ok (movedText 2 ⟨100, 200⟩)] ∧
    (onceRun (selectHandler "X") selectTimeoutReply
        (armOnce selectNoConnReply [("1", 7)])
        [.timeout, .msg "1" (.completed "select-node" none)]).writes =
      [selectTimeoutReply, .ok "Successfully selected node: X"] := ⟨rfl, rfl⟩

/-- C2 counterexample: `addNumbersTool` is in the catalog with required
arguments `a` and `b`, yet a call with both omitted is answered by a
success message (`Sum of undefined + undefined = 0`), not by a `-32602`
error, refuting the claim for the catalog's `addNumbersTool` entry. -/
theorem addNumbers_missing_args_no_error :
    (⟨"addNumbersTool", ["a", "b"]⟩ : ToolDescriptor) ∈ toolsCatalog ∧
    (["a", "b"].any (fieldAbsent {})) = true ∧
    (handleToolCall 1 [] "addNumbersTool" {}).1 =
      .msg ⟨1, .ok "Sum of undefined + undefined = 0"⟩ ∧
    isInvalidParamsMsg (handleToolCall 1 [] "addNumbersTool" {}).1 = false := by
  refine ⟨by decide, by decide, rfl, rfl⟩

/-- C3 counterexample: a valid `figma.createRectangle` call with zero
registered plugin sockets is answered by a SUCCESS message ("Rectangle
creation operation sent to plugin"), not by an error indicating that no
plugin is connected — the branch never inspects the pool. -/
theorem createRectangle_empty_pool_success_reply :
    isOkMsg (handleToolCall 1 [] "figma.createRectangle"
      { position := some ⟨0, 0⟩, size := some ⟨10, 10⟩ }).1 = true ∧
    isErrorMsg (handleToolCall 1 [] "figma.createRectangle"
      { position := some ⟨0, 0⟩, size := some ⟨10, 10⟩ }).1 = false := ⟨rfl, rfl⟩

/-- C3 (amended): with zero plugin sockets a valid `figma.createRectangle`
call replies with the fixed success message, the operation record is still
built, and the broadcast delivers it to no socket; the handler is a total
function, so no crash occurs. -/
theorem createRectangle_empty_pool_behavior (rpcId : Int) (args : Args)
    (p : Pos) (s : Size) (hp : args.position = some p) (hs : args.size = some s) :
    (handleToolCall rpcId [] "figma.createRectangle" args).1 =
      .msg ⟨rpcId, .ok "Rectangle creation operation sent to plugin"⟩ ∧
    (handleToolCall rpcId [] "figma.createRectangle" args).2 =
      [.createRectangle p s (args.color.getD ⟨0.8, 0.8, 0.8⟩)] ∧
    broadcastDeliveries []
      (.createRectangle p s (args.color.getD ⟨0.8, 0.8, 0.8⟩)) = [] := by
  simp [handleToolCall, hp, hs, broadcastDeliveries]

/-- Witness for `createRectangle_empty_pool_behavior` at a concrete call. -/
theorem createRectangle_empty_pool_behavior_witness :
    (handleToolCall 1 [] "figma.createRectangle"
      { position := some ⟨0, 0⟩, size := some ⟨10, 10⟩ }).1 =
      .msg ⟨1, .ok "Rectangle creation operation sent to plugin"⟩ ∧
    (handleToolCall 1 [] "figma.createRectangle"
      { position := some ⟨0, 0⟩, size := some ⟨10, 10⟩ }).2 =
      [.createRectangle ⟨0, 0⟩ ⟨10, 10⟩ ⟨0.8, 0.8, 0.8⟩] ∧
    broadcastDeliveries [] (.createRectangle ⟨0, 0⟩ ⟨10, 10⟩ ⟨0.8, 0.8, 0.8⟩) = [] :=
  createRectangle_empty_pool_behavior 1
    { position := some ⟨0, 0⟩, size := some ⟨10, 10⟩ } ⟨0, 0⟩ ⟨10, 10⟩ rfl rfl

/-- C6 counterexample: a valid `figma.createText` call that SUPPLIES
`fontSize: 0` is not forwarded unchanged — the broadcast record carries
the default 24, because `args.fontSize || 24` treats the supplied 0 as
falsy. -/
theorem createText_zero_fontSize_not_forwarded :
    (handleToolCall 1 [] "figma.createText"
      { text := some "hi", position := some ⟨0, 0⟩, fontSize := some 0 }).2 =
      [.createText "hi" ⟨0, 0⟩ 24 ⟨0, 0, 0⟩ "Inter" "AUTO_WIDTH"] ∧
    (24 : Rat) ≠ 0 := ⟨rfl, by norm_num⟩

/-- C5 counterexample: with two plugin sockets registered, a qualifying
`select-node` completion arriving on the SECOND socket does not resolve
the pending `figma.selectNode` call (the one-shot listener is attached to
the first socket only): no terminal write happens, the timer stays
uncleared, and the eventual outcome is the timeout error. -/
theorem second_socket_message_not_resolving :
    (onceMsg (selectHandler "X") (armOnce selectNoConnReply [("1", 1), ("2", 2)])
        "2" (.completed "select-node" none)).writes = [] ∧
    (onceMsg (selectHandler "X") (armOnce selectNoConnReply [("1", 1), ("2", 2)])
        "2" (.completed "select-node" none)).tCleared = false ∧
    (onceRun (selectHandler "X") selectTimeoutReply
        (armOnce selectNoConnReply [("1", 1), ("2", 2)])
        [.msg "2" (.completed "select-node" none), .timeout]).writes =
      [selectTimeoutReply] := ⟨rfl, rfl, rfl⟩

/-- C10: `addNumbersTool` never replies with an error, for any raw values
of `a` and `b`: the reply is always the success message whose text
interpolates the raw argument values (`undefined` for a missing one),
while every falsy operand — missing, `null`, `0`, `""` or `false` — is
coerced to 0 by `args.a || 0` before the sum. -/
theorem addNumbers_total_behavior (rpcId : Int) (pool : List (String × Nat))
    (a b : JVal) :
    isErrorMsg (handleToolCall rpcId pool "addNumbersTool" { a := a, b := b }).1
      = false ∧
    handleToolCall rpcId pool "addNumbersTool" { a := a, b := b } =
      (.msg ⟨rpcId, .ok (sumText a b)⟩, []) ∧
    (jsTruthy a = false → jsOr a (.num 0) = .num 0) ∧
    (jsTruthy b = false → jsOr b (.num 0) = .num 0) ∧
    sumText .undef b =
      "Sum of undefined + " ++ jsToString b ++ " = " ++
        jsToString (jsAdd (.num 0) (jsOr b (.num 0))) := by
  refine ⟨rfl, rfl, fun ha => ?_, fun hb => ?_, ?_⟩
  · simp [jsOr, ha]
  · simp [jsOr, hb]
  · simp [sumText, jsToString, jsOr, jsTruthy]

/-- Witness for `addNumbers_total_behavior` with `a` missing and `b = 3`. -/
theorem addNumbers_total_behavior_witness :
    isErrorMsg (handleToolCall 1 [] "addNumbersTool" { a := .undef, b := .num 3 }).1
      = false ∧
    handleToolCall 1 [] "addNumbersTool" { a := .undef, b := .num 3 } =
      (.msg ⟨1, .ok (sumText .undef (.num 3))⟩, []) ∧
    jsOr .undef (.num 0) = .num 0 ∧
    sumText .undef (.num 3) =
      "Sum of undefined + " ++ jsToString (.num 3) ++ " = " ++
        jsToString (jsAdd (.num 0) (jsOr (.num 3) (.num 0))) := by
  have h := addNumbers_total_behavior 1 [] .undef (.num 3)
  exact ⟨h.1, h.2.1, h.2.2.1 rfl, h.2.2.2.2⟩

/-- C2 (amended): for every catalog tool other than `addNumbersTool`, a
`tools/call` whose arguments omit one of the tool's required arguments is
answered by a `-32602` invalid-params message, and no operation is passed
to `sendOperationToPlugin`. -/
theorem missing_required_invalid_params (t : ToolDescriptor)
    (ht : t ∈ toolsCatalog) (hne : t.name ≠ "addNumbersTool")
    (rpcId : Int) (pool : List (String × Nat)) (args : Args)
    (h : t.required.any (fieldAbsent args) = true) :
    isInvalidParamsMsg (handleToolCall rpcId pool t.name args).1 = true ∧
      (handleToolCall rpcId pool t.name args).2 = [] := by
  simp only [List.any_eq_true] at h
  obtain ⟨f, hf, habs⟩ := h
  fin_cases ht <;>
    first
      | exact absurd rfl hne
      | (fin_cases hf <;>
          simp [fieldAbsent] at habs <;>
          simp [handleToolCall, habs, strFalsy, isInvalidParamsMsg, invalidParams])

/-- Witness for `missing_required_invalid_params`: `figma.createRectangle`
called with no arguments. -/
theorem missing_required_invalid_params_witness :
    isInvalidParamsMsg (handleToolCall 1 [] "figma.createRectangle" {}).1 = true ∧
      (handleToolCall 1 [] "figma.createRectangle" {}).2 = [] :=
  missing_required_invalid_params ⟨"figma.createRectangle", ["position", "size"]⟩
    (by decide) (by decide) 1 [] {} (by decide)

theorem foldl_multiResolve_writes (c : String) (r : Reply) :
    ∀ (l : List (String × Nat)) (s : MultiState),
      (l.foldl (fun s _ => multiResolve c r s) s).writes =
        s.writes ++ List.replicate l.length r := by
  intro l
  induction l with
  | nil => intro s; simp
  | cons x xs ih =>
      intro s
      rw [List.foldl_cons, ih]
      simp [multiResolve, List.replicate_succ]

theorem foldl_multiResolve_tCleared_mono (c : String) (r : Reply) :
    ∀ (l : List (String × Nat)) (s : MultiState), s.tCleared = true →
      (l.foldl (fun s _ => multiResolve c r s) s).tCleared = true := by
  intro l
  induction l with
  | nil => intro s hs; simpa using hs
  | cons x xs ih =>
      intro s hs
      simp only [List.foldl_cons]
      exact ih _ rfl

theorem foldl_multiResolve_tCleared (c : String) (r : Reply)
    (l : List (String × Nat)) (s : MultiState) (hl : l ≠ []) :
    (l.foldl (fun s _ => multiResolve c r s) s).tCleared = true := by
  cases l with
  | nil => exact absurd rfl hl
  | cons x xs =>
      simp only [List.foldl_cons]
      exact foldl_multiResolve_tCleared_mono c r xs _ rfl

theorem attachAll_mem (c : String) (sck : Nat) :
    ∀ (pool : List (String × Nat)) (n : Nat), (c, sck) ∈ pool →
      ∃ i, (c, i) ∈ attachAll pool n := by
  intro pool
  induction pool with
  | nil => intro n hmem; cases hmem
  | cons x xs ih =>
      intro n hmem
      rcases List.mem_cons.mp hmem with heq | htail
      · exact ⟨n, by simp [attachAll, ← heq]⟩
      · obtain ⟨i, hi⟩ := ih (n + 1) htail
        exact ⟨i, by simp [attachAll]; right; exact hi⟩

theorem multiMsg_resolves (h : PluginMsg → Option Reply) (st : MultiState)
    (c : String) (d : PluginMsg) (r : Reply) (hd : h d = some r)
    (hl : st.listeners.filter (fun l => l.1 = c) ≠ []) :
    (multiMsg h st c d).tCleared = true ∧ r ∈ (multiMsg h st c d).writes := by
  unfold multiMsg
  rw [hd]
  refine ⟨foldl_multiResolve_tCleared c r _ st hl, ?_⟩
  rw [foldl_multiResolve_writes]
  refine List.mem_append_right _ ?_
  rw [List.mem_replicate]
  exact ⟨fun hz => hl (List.eq_nil_of_length_eq_zero hz), rfl⟩

/-- C5 (amended): a matching outcome resolves a pending call before the
timeout only according to where the listener was attached.  (i) For
`figma.selectNode` (one-shot listener on the first pool socket) a matching
completion arriving on the FIRST socket resolves the call: the success
message is written and the timer cleared.  (ii) A message on any other
socket leaves the correlator state — listener, timer and writes —
entirely unchanged, so it can never resolve the call.  (iii) For
`figma.moveNode` (recurring listeners on every pool socket) a matching
report on ANY registered socket resolves the call before the timeout. -/
theorem correlator_socket_resolution (c : String) (sck : Nat)
    (rest : List (String × Nat)) (nodeId : String) :
    ((onceMsg (selectHandler nodeId) (armOnce selectNoConnReply ((c, sck) :: rest))
        c (.completed "select-node" none)).writes =
      [.ok ("Successfully selected node: " ++ nodeId)] ∧
     (onceMsg (selectHandler nodeId) (armOnce selectNoConnReply ((c, sck) :: rest))
        c (.completed "select-node" none)).tCleared = true) ∧
    (∀ (c' : String) (d : PluginMsg), c' ≠ c →
      onceMsg (selectHandler nodeId) (armOnce selectNoConnReply ((c, sck) :: rest))
          c' d =
        armOnce selectNoConnReply ((c, sck) :: rest)) ∧
    (∀ (pool : List (String × Nat)) (pos : Pos) (k : Nat) (c2 : String) (s2 : Nat),
      (c2, s2) ∈ pool →
        (multiMsg (moveHandler pos) (armMulti pool) c2 (.nodesMoved k)).tCleared
            = true ∧
          Reply.ok (movedText k pos) ∈
            (multiMsg (moveHandler pos) (armMulti pool) c2 (.nodesMoved k)).writes) := by
  refine ⟨⟨?_, ?_⟩, ?_, ?_⟩
  · simp [onceMsg, armOnce, selectHandler]
  · simp [onceMsg, armOnce, selectHandler]
  · intro c' d hne
    simp [onceMsg, armOnce, Ne.symm hne]
  · intro pool pos k c2 s2 hmem
    obtain ⟨i, hi⟩ := attachAll_mem c2 s2 pool 0 hmem
    refine multiMsg_resolves _ _ _ _ _ rfl ?_
    refine List.ne_nil_of_mem (a := (c2, i)) ?_
    simp only [armMulti, List.mem_filter]
    exact ⟨hi, by simp⟩

/-- Witness for `correlator_socket_resolution` over the two-socket pool
`[("1", 1), ("2", 2)]`. -/
theorem correlator_socket_resolution_witness :
    ((onceMsg (selectHandler "X") (armOnce selectNoConnReply [("1", 1), ("2", 2)])
        "1" (.completed "select-node" none)).writes =
      [.ok "Successfully selected node: X"] ∧
     (onceMsg (selectHandler "X") (armOnce selectNoConnReply [("1", 1), ("2", 2)])
        "1" (.completed "select-node" none)).tCleared = true) ∧
    onceMsg (selectHandler "X") (armOnce selectNoConnReply [("1", 1), ("2", 2)])
        "2" (.other "plugin-ready") =
      armOnce selectNoConnReply [("1", 1), ("2", 2)] ∧
    ((multiMsg (moveHandler ⟨3, 4⟩) (armMulti [("1", 1), ("2", 2)]) "2"
        (.nodesMoved 1)).tCleared = true ∧
      Reply.ok (movedText 1 ⟨3, 4⟩) ∈
        (multiMsg (moveHandler ⟨3, 4⟩) (armMulti [("1", 1), ("2", 2)]) "2"
          (.nodesMoved 1)).writes) := by
  have h := correlator_socket_resolution "1" 1 [("2", 2)] "X"
  exact ⟨h.1, h.2.1 "2" (.other "plugin-ready") (by decide),
    h.2.2 [("1", 1), ("2", 2)] ⟨3, 4⟩ 1 "2" 2 (by decide)⟩

/-- C6 (amended): the broadcast records of valid `figma.createRectangle`
and `figma.createText` calls carry the documented defaults for omitted
arguments — light gray `{0.8, 0.8, 0.8}` for the rectangle color, black
`{0, 0, 0}` for the text color, the fixed `Inter` family, and the
`AUTO_WIDTH` resize mode — and supplied TRUTHY arguments are forwarded
unchanged; a supplied falsy value (the number 0, the empty string) is
replaced by the same default, because the normalization is the JS `||`. -/
theorem creation_defaults (rpcId : Int) (pool : List (String × Nat))
    (args : Args) :
    (∀ p s, args.position = some p → args.size = some s →
      (handleToolCall rpcId pool "figma.createRectangle" args).2 =
        [.createRectangle p s (args.color.getD ⟨0.8, 0.8, 0.8⟩)]) ∧
    (∀ t p, args.text = some t → t ≠ "" → args.position = some p →
      (handleToolCall rpcId pool "figma.createText" args).2 =
        [.createText t p (numOr args.fontSize 24) (args.color.getD ⟨0, 0, 0⟩)
          (strOr args.fontFamily "Inter") (strOr args.resizeMode "AUTO_WIDTH")]) ∧
    (∀ c, args.color = some c →
      args.color.getD ⟨0.8, 0.8, 0.8⟩ = c ∧ args.color.getD ⟨0, 0, 0⟩ = c) ∧
    (∀ n, args.fontSize = some n → n ≠ 0 → numOr args.fontSize 24 = n) ∧
    (∀ f, args.fontFamily = some f → f ≠ "" → strOr args.fontFamily "Inter" = f) ∧
    (∀ m, args.resizeMode = some m → m ≠ "" →
      strOr args.resizeMode "AUTO_WIDTH" = m) := by
  refine ⟨?_, ?_, ?_, ?_, ?_, ?_⟩
  · intro p s hp hs
    simp [handleToolCall, hp, hs]
  · intro t p ht htne hp
    simp [handleToolCall, ht, htne, hp, strFalsy]
  · intro c hc
    simp [hc]
  · intro n hn hne
    simp [numOr, hn, hne]
  · intro f hf hne
    simp [strOr, hf, hne]
  · intro m hm hne
    simp [strOr, hm, hne]

/-- Witness for `creation_defaults`: a rectangle call with color omitted
and a text call supplying every argument with truthy values. -/
theorem creation_defaults_witness :
    (handleToolCall 1 [] "figma.createRectangle"
      { position := some ⟨1, 2⟩, size := some ⟨3, 4⟩ }).2 =
      [.createRectangle ⟨1, 2⟩ ⟨3, 4⟩ ⟨0.8, 0.8, 0.8⟩] ∧
    (handleToolCall 1 [] "figma.createText"
      { text := some "T", position := some ⟨1, 2⟩, color := some ⟨1, 0, 0⟩,
        fontSize := some 12, fontFamily := some "Roboto",
        resizeMode := some "FIXED_SIZE" }).2 =
      [.createText "T" ⟨1, 2⟩ 12 ⟨1, 0, 0⟩ "Roboto" "FIXED_SIZE"] := by
  constructor
  · exact (creation_defaults 1 []
      { position := some ⟨1, 2⟩, size := some ⟨3, 4⟩ }).1 ⟨1, 2⟩ ⟨3, 4⟩ rfl rfl
  · have h := creation_defaults 1 []
      { text := some "T", position := some ⟨1, 2⟩, color := some ⟨1, 0, 0⟩,
        fontSize := some 12, fontFamily := some "Roboto",
        resizeMode := some "FIXED_SIZE" }
    have h2 := h.2.1 "T" ⟨1, 2⟩ rfl (by decide) rfl
    rw [h2]
    have hc := (h.2.2.1 ⟨1, 0, 0⟩ rfl).2
    have hn := h.2.2.2.1 12 rfl (by norm_num)
    have hf := h.2.2.2.2.1 "Roboto" rfl (by decide)
    have hm := h.2.2.2.2.2 "FIXED_SIZE" rfl (by decide)
    rw [hc, hn, hf, hm]

/-- C8: `figma.createIcon` icon-name fallback.  If the requested name is
not a key of the icon table, the broadcast operation carries the fixed
fallback `square-x` and the completion handler's success text discloses
the fallback, quoting both the requested and the fallback name; if the
name is in the table, the requested icon is sent and the success text is
the plain format with no fallback disclosure. -/
theorem createIcon_fallback (rpcId : Int) (pool : List (String × Nat))
    (args : Args) (name : String) (p : Pos) (nid : Option String)
    (hn : args.iconName = some name) (hne : name ≠ "")
    (hp : args.position = some p) :
    (name ∉ lucideIconKeys →
      prepareIcon name = ("square-x", true) ∧
      (handleToolCall rpcId pool "figma.createIcon" args).2 =
        [.createIcon "square-x" p args.sizeNum args.color args.strokeWidth] ∧
      iconHandlerFire name "square-x" true (.completed "create-icon" nid) =
        some (.ok (iconFallbackText name "square-x" (jsStrOr nid "unknown")))) ∧
    (name ∈ lucideIconKeys →
      prepareIcon name = (name, false) ∧
      (handleToolCall rpcId pool "figma.createIcon" args).2 =
        [.createIcon name p args.sizeNum args.color args.strokeWidth] ∧
      iconHandlerFire name name false (.completed "create-icon" nid) =
        some (.ok (iconSuccessText name (jsStrOr nid "unknown")))) := by
  have hsq : "square-x" ∈ lucideIconKeys := by decide
  constructor
  · intro hmem
    have hpr : prepareIcon name = ("square-x", true) := by
      simp [prepareIcon, hmem]
    refine ⟨hpr, ?_, ?_⟩
    · simp [handleToolCall, hn, hne, hp, strFalsy, hpr, hsq]
    · simp [iconHandlerFire]
  · intro hmem
    have hpr : prepareIcon name = (name, false) := by
      simp [prepareIcon, hmem]
    refine ⟨hpr, ?_, ?_⟩
    · simp [handleToolCall, hn, hne, hp, strFalsy, hpr, hsq]
    · simp [iconHandlerFire]

/-- Witness for `createIcon_fallback`: the unknown name
`definitely-not-an-icon` falls back to `square-x` with disclosure, and the
catalog name `heart` is sent as requested without disclosure. -/
theorem createIcon_fallback_witness :
    (prepareIcon "definitely-not-an-icon" = ("square-x", true) ∧
      (handleToolCall 1 [] "figma.createIcon"
        { iconName := some "definitely-not-an-icon", position := some ⟨0, 0⟩ }).2 =
        [.createIcon "square-x" ⟨0, 0⟩ none none none] ∧
      iconHandlerFire "definitely-not-an-icon" "square-x" true
          (.completed "create-icon" (some "9:1")) =
        some (.ok "Icon 'definitely-not-an-icon' not found. Created fallback 'square-x' icon instead (ID: 9:1)")) ∧
    (prepareIcon "heart" = ("heart", false) ∧
      (handleToolCall 1 [] "figma.createIcon"
        { iconName := some "heart", position := some ⟨0, 0⟩ }).2 =
        [.createIcon "heart" ⟨0, 0⟩ none none none] ∧
      iconHandlerFire "heart" "heart" false
          (.completed "create-icon" (some "9:1")) =
        some (.ok "Successfully created 'heart' icon (ID: 9:1)")) := by
  constructor
  · exact (createIcon_fallback 1 []
      { iconName := some "definitely-not-an-icon", position := some ⟨0, 0⟩ }
      "definitely-not-an-icon" ⟨0, 0⟩ (some "9:1") rfl (by decide) rfl).1 (by decide)
  · exact (createIcon_fallback 1 []
      { iconName := some "heart", position := some ⟨0, 0⟩ }
      "heart" ⟨0, 0⟩ (some "9:1") rfl (by decide) rfl).2 (by decide)

theorem mapSet_not_mem (k : String) (v : Nat) :
    ∀ (pool : List (String × Nat)), k ∉ pool.map Prod.fst →
      mapSet pool k v = pool ++ [(k, v)] := by
  intro pool
  induction pool with
  | nil => intro _; rfl
  | cons x xs ih =>
      intro hk
      simp only [List.map_cons, List.mem_cons] at hk
      push_neg at hk
      simp [mapSet, Ne.symm hk.1, ih hk.2]

theorem mapSet_replace_last (k : String) (v v' : Nat) :
    ∀ (pool : List (String × Nat)), k ∉ pool.map Prod.fst →
      mapSet (pool ++ [(k, v)]) k v' = pool ++ [(k, v')] := by
  intro pool
  induction pool with
  | nil => simp [mapSet]
  | cons x xs ih =>
      intro hk
      simp only [List.map_cons, List.mem_cons] at hk
      push_neg at hk
      simp [mapSet, Ne.symm hk.1, ih hk.2]

/-- C9: plugin client identifiers are not guaranteed distinct.  Two plugin
sockets registered during the same clock millisecond `t` both receive the
clientId `toString t`; the second `Map.set` replaces the first socket in
the pool, after which a broadcast reaches the second socket but not the
first. -/
theorem same_millisecond_clientId_collision (pool : List (String × Nat))
    (t : Nat) (s1 s2 : Nat) (hk : toString t ∉ pool.map Prod.fst)
    (hs1 : s1 ∉ pool.map Prod.snd) (hne : s1 ≠ s2) :
    (registerClient pool t s1).2 =
        (registerClient (registerClient pool t s1).1 t s2).2 ∧
      (registerClient (registerClient pool t s1).1 t s2).1 =
        pool ++ [(toString t, s2)] ∧
      s2 ∈ broadcastTargets (registerClient (registerClient pool t s1).1 t s2).1 ∧
      s1 ∉ broadcastTargets (registerClient (registerClient pool t s1).1 t s2).1 := by
  have h1 : (registerClient pool t s1).1 = pool ++ [(toString t, s1)] :=
    mapSet_not_mem _ _ pool hk
  have h2 : (registerClient (registerClient pool t s1).1 t s2).1 =
      pool ++ [(toString t, s2)] := by
    rw [registerClient, h1]
    exact mapSet_replace_last _ _ _ pool hk
  refine ⟨rfl, h2, ?_, ?_⟩
  · rw [h2]; simp [broadcastTargets]
  · rw [h2]
    simp only [broadcastTargets, List.map_append, List.map_cons, List.map_nil,
      List.mem_append, List.mem_singleton, not_or]
    exact ⟨hs1, hne⟩

/-- Witness for `same_millisecond_clientId_collision` on an empty pool at
millisecond 0 with sockets 1 and 2. -/
theorem same_millisecond_clientId_collision_witness :
    (registerClient [] 0 1).2 = (registerClient (registerClient [] 0 1).1 0 2).2 ∧
      (registerClient (registerClient [] 0 1).1 0 2).1 = [] ++ [(toString 0, 2)] ∧
      2 ∈ broadcastTargets (registerClient (registerClient [] 0 1).1 0 2).1 ∧
      1 ∉ broadcastTargets (registerClient (registerClient [] 0 1).1 0 2).1 :=
  same_millisecond_clientId_collision [] 0 1 2 (by decide) (by decide) (by decide)

end FigmaMCP
